import Mathlib

/-!
Verification of the business-rule-management assistant (nerealegui/capstone).

The repository ships the multi-stage orchestration workflow described in its
architecture documents: parse, conflict analysis, impact analysis,
orchestration decision, artifact generation, verification, response and error
handling, threaded through a single workflow state.  The Python implementation
modules (workflow graph, rag_generate, kb_utils, rule store, JSON response
handler) are not part of the source tree here, only their documentation,
configuration, and code excerpts; the definitions below therefore model those
operations from the specification and from the code excerpts that the
repository documents do contain, and the theorems settle the specified
properties against these models.
-/

/-- Severity of a detected conflict, a three-level ordinal. -/
inductive Severity
  | low
  | medium
  | high
deriving DecidableEq

/-- Orchestration decision produced by the decision stage. -/
inductive Decision
  | proceed
  | modify
  | cancel
deriving DecidableEq

/-- The stages of the workflow state machine. -/
inductive Stage
  | load_config
  | parse_rule
  | conflict_analysis
  | impact_analysis
  | orchestration_decision
  | generate_files
  | verify_files
  | respond
  | handle_error
deriving DecidableEq

/-- A single condition of a structured rule: a field, an operator and a value. -/
structure RuleCondition where
  field : String
  op : String
  value : String
deriving DecidableEq

/-- A single typed action of a structured rule. -/
structure RuleAction where
  action_type : String
  parameters : List String
deriving DecidableEq

/-- Structured rule produced by the parse stage. -/
structure ParsedRule where
  name : String
  summary : String
  conditions : List RuleCondition
  actions : List RuleAction
deriving DecidableEq

/-- A detected conflict between the pending rule and an existing rule.
`ctype` is the conflict category (logical, business, operational). -/
structure Conflict where
  new_rule_id : String
  existing_rule_id : String
  ctype : String
  severity : Severity
  description : String
  suggested_resolution : String
deriving DecidableEq

/-- Advisory impact assessment produced by the impact stage. -/
structure ImpactAnalysis where
  level : Severity
  recommendation : String
deriving DecidableEq

/-- A persisted rule of the Rule Store. -/
structure Rule where
  rule_id : String
  name : String
  category : String
  conditions : List RuleCondition
  actions : List RuleAction
  priority : Severity
  active : Bool
deriving DecidableEq

/-- Modelled from the spec: the Rule Store upsert (the store implementation is
absent from the sources).  The store is keyed by `rule_id`: upserting removes
any rule already stored under the same id and appends the new payload, so the
same `rule_id` overwrites rather than duplicates. -/
def upsert_rule (store : List Rule) (r : Rule) : List Rule :=
  (store.filter fun x => decide (x.rule_id ≠ r.rule_id)) ++ [r]

/-- The change types accepted by `VersionMetadata`, from the validation code
excerpt in the rule-versioning documents. -/
def valid_change_types : List String :=
  ["create", "update", "modify", "drl_generation", "impact_analysis"]

/-- Version metadata record for a rule, from the rule-versioning documents. -/
structure VersionMetadata where
  version : Int
  change_type : String
  change_summary : String
  impact_summary : String
  user : String
  drl_generated : Bool
deriving DecidableEq

/-- Constructor of `VersionMetadata`, embedded from the validation code excerpt
in the repository documents: it raises `ValueError` when the version is not a
positive integer (modelled on `Int`, so the `isinstance` check becomes the
positivity check) or the change type is not one of `valid_change_types`;
otherwise it succeeds with the given field values. -/
def VersionMetadata.init (version : Int) (change_type change_summary impact_summary user : String)
    (drl_generated : Bool) : Except String VersionMetadata :=
  if version < 1 then
    Except.error "Version must be a positive integer"
  else if decide (change_type ∉ valid_change_types) then
    Except.error "Change type must be one of the valid change types"
  else
    Except.ok
      { version := version, change_type := change_type, change_summary := change_summary,
        impact_summary := impact_summary, user := user, drl_generated := drl_generated }

/-- Whitespace test used by the input validation (space, tab, newline,
carriage return and the non-breaking space that the test report records as
detected). -/
def isWS (c : Char) : Bool :=
  c == ' ' || c == '\t' || c == '\n' || c == '\r' || c == '\xA0'

/-- A user input is invalid when it is absent or empty after trimming, that
is, when every character is whitespace. -/
def invalidUserInput (user_input : Option String) : Bool :=
  match user_input with
  | none => true
  | some s => s.data.all isWS

/-- Human-readable stage names used in error messages. -/
def stageName : Stage → String
  | Stage.load_config => "configuration loading"
  | Stage.parse_rule => "rule parsing"
  | Stage.conflict_analysis => "conflict analysis"
  | Stage.impact_analysis => "impact analysis"
  | Stage.orchestration_decision => "orchestration decision"
  | Stage.generate_files => "file generation"
  | Stage.verify_files => "file verification"
  | Stage.respond => "response generation"
  | Stage.handle_error => "error handling"

/-- Message returned when the input is rejected before any stage runs. -/
def invalidInputMessage : String :=
  "InputValidationError: the user input must be non-empty after trimming whitespace. Please rephrase your request."

/-- Terminal message for a `modify` decision: the run asks for clarification
instead of looping back into parsing. -/
def modifyMessage : String :=
  "Please provide additional details so that the proposed rule can be revised; submit the revised request as a new run."

/-- Terminal message for a `cancel` decision. -/
def cancelMessage : String :=
  "Rule generation cancelled. No changes were made to the rule store."

/-- Terminal message when high-severity conflicts block generation: the
conflict details are surfaced and the user is prompted to modify or cancel. -/
def highConflictMessage (cs : List Conflict) : String :=
  "High-severity conflicts were detected: " ++
    (String.intercalate "; " (cs.map fun c => c.description) ++
      ". Generation was not performed. Please modify or cancel the proposed rule.")

/-- Terminal message when verification failed but the artifacts are still
returned together with a warning. -/
def verifyWarningMessage (arts : String × String) (msg : String) : String :=
  "Warning: verification of the generated files failed: " ++
    (msg ++ (". The generated rule file and decision table are still provided. Rule file: " ++
      (arts.1 ++ (" Decision table: " ++ arts.2))))

/-- Terminal message for a fully successful run. -/
def generationSuccessMessage (arts : String × String) : String :=
  "Rule files generated and verified successfully. Rule file: " ++
    (arts.1 ++ (" Decision table: " ++ arts.2))

/-- Terminal message produced by the error handler: it names the failing
stage, includes the stage message, and asks the user to retry. -/
def errorMessage (stg : Stage) (msg : String) : String :=
  "The workflow could not complete because the " ++
    (stageName stg ++ (" step failed: " ++ (msg ++ ". Please try again or rephrase your request.")))

/-- Fallback terminal message for response states outside the specified
routing combinations. -/
def fallbackMessage : String :=
  "Workflow completed."

/-- The single mutable workflow state threaded through all stages, from the
data model of the specification. -/
structure WorkflowState where
  user_input : String
  conversation_history : List (String × String)
  industry_context : String
  parsed_rule : Option ParsedRule
  conflicts : List Conflict
  impact_report : Option ImpactAnalysis
  decision : Option Decision
  generated_artifacts : Option (String × String)
  verification_result : Option (Bool × String)
  error : Option (Stage × String)
  final_response : String

/-- Modelled from the spec: the external LLM Client Adapter, one opaque
outcome per LLM-backed stage (the adapter wrapper is absent from the
sources).  Quantifying over all oracles covers every combination of stage
successes and failures. -/
structure Oracle where
  parse_result : Except String ParsedRule
  conflict_result : Except String (List Conflict)
  impact_result : Except String ImpactAnalysis
  decision_result : Except String Decision
  generate_result : Except String (String × String)
  verify_result : Bool × String

/-- The error carried when the run is rejected before any stage executes. -/
structure InputValidationError where
  message : String
deriving DecidableEq

/-- The observable outcome of a workflow run: the terminal state, the ordered
trace of visited stages, the number of LLM adapter calls made, the rules
written to the store, and the resulting store. -/
structure RunData where
  state : WorkflowState
  trace : List Stage
  llm_calls : Nat
  writes : List Rule
  store_after : List Rule

/-- Fresh workflow state at the start of a run. -/
def initialState (s : String) (hist : List (String × String)) (ind : String) : WorkflowState :=
  { user_input := s, conversation_history := hist, industry_context := ind,
    parsed_rule := none, conflicts := [], impact_report := none, decision := none,
    generated_artifacts := none, verification_result := none, error := none,
    final_response := "" }

/-- Whether any conflict in the list has severity high. -/
def hasHighSeverity (cs : List Conflict) : Bool :=
  cs.any fun c => decide (c.severity = Severity.high)

/-- Terminal response rendering: high-severity conflicts are surfaced first,
otherwise the message follows the decision and the verification outcome. -/
def respondMessage (st : WorkflowState) : String :=
  if hasHighSeverity st.conflicts then highConflictMessage st.conflicts
  else
    match st.decision with
    | some Decision.modify => modifyMessage
    | some Decision.cancel => cancelMessage
    | some Decision.proceed =>
      match st.generated_artifacts, st.verification_result with
      | some arts, some (true, _) => generationSuccessMessage arts
      | some arts, some (false, msg) => verifyWarningMessage arts msg
      | _, _ => fallbackMessage
    | none => fallbackMessage

/-- Finish a run through the error handler: the failure is recorded in the
error field and the error handler produces the final response. -/
def finishError (st : WorkflowState) (visited : List Stage) (calls : Nat) (stg : Stage)
    (msg : String) (store : List Rule) : RunData :=
  { state := { st with error := some (stg, msg), final_response := errorMessage stg msg },
    trace := visited ++ [stg, Stage.handle_error], llm_calls := calls, writes := [],
    store_after := store }

/-- Finish a run through the respond stage. -/
def finishRespond (st : WorkflowState) (visited : List Stage) (calls : Nat)
    (writes : List Rule) (store : List Rule) : RunData :=
  { state := { st with final_response := respondMessage st },
    trace := visited ++ [Stage.respond], llm_calls := calls, writes := writes,
    store_after := store }

/-- The rule persisted on successful generation, keyed by the parsed rule
name. -/
def mkStoredRule (pr : ParsedRule) (ind : String) : Rule :=
  { rule_id := pr.name, name := pr.name, category := ind, conditions := pr.conditions,
    actions := pr.actions, priority := Severity.medium, active := true }

/-- Modelled from the spec: the workflow orchestrator `run_workflow` (the
workflow implementation module is absent from the sources).  Input validation
precedes every stage; the stages run in the specified order with the
specified routing: a stage failure routes to the error handler, the decision
stage routes to generation exactly when the decision is proceed and no
conflict has severity high, verification failure is soft and still reaches
the respond stage, and both terminal stages populate the final response. -/
def run_workflow (user_input : Option String) (hist : List (String × String)) (ind : String)
    (o : Oracle) (store : List Rule) : Except InputValidationError RunData :=
  if invalidUserInput user_input then
    Except.error { message := invalidInputMessage }
  else
    let s := user_input.getD ""
    let st0 := initialState s hist ind
    match o.parse_result with
    | Except.error m => Except.ok (finishError st0 [Stage.load_config] 1 Stage.parse_rule m store)
    | Except.ok pr =>
      let st1 := { st0 with parsed_rule := some pr }
      match o.conflict_result with
      | Except.error m =>
        Except.ok (finishError st1 [Stage.load_config, Stage.parse_rule] 2
          Stage.conflict_analysis m store)
      | Except.ok cs =>
        let st2 := { st1 with conflicts := cs }
        match o.impact_result with
        | Except.error m =>
          Except.ok (finishError st2 [Stage.load_config, Stage.parse_rule,
            Stage.conflict_analysis] 3 Stage.impact_analysis m store)
        | Except.ok ia =>
          let st3 := { st2 with impact_report := some ia }
          match o.decision_result with
          | Except.error m =>
            Except.ok (finishError st3 [Stage.load_config, Stage.parse_rule,
              Stage.conflict_analysis, Stage.impact_analysis] 4
              Stage.orchestration_decision m store)
          | Except.ok d =>
            let st4 := { st3 with decision := some d }
            if d = Decision.proceed ∧ hasHighSeverity cs = false then
              match o.generate_result with
              | Except.error m =>
                Except.ok (finishError st4 [Stage.load_config, Stage.parse_rule,
                  Stage.conflict_analysis, Stage.impact_analysis,
                  Stage.orchestration_decision] 5 Stage.generate_files m store)
              | Except.ok arts =>
                let st5 := { st4 with generated_artifacts := some arts }
                let newRule := mkStoredRule pr ind
                let store2 := upsert_rule store newRule
                let st6 := { st5 with verification_result := some o.verify_result }
                Except.ok (finishRespond st6 [Stage.load_config, Stage.parse_rule,
                  Stage.conflict_analysis, Stage.impact_analysis,
                  Stage.orchestration_decision, Stage.generate_files,
                  Stage.verify_files] 5 [newRule] store2)
            else
              Except.ok (finishRespond st4 [Stage.load_config, Stage.parse_rule,
                Stage.conflict_analysis, Stage.impact_analysis,
                Stage.orchestration_decision] 4 [] store)

/-- Number of LLM adapter calls observable from a run result; a rejected run
made none. -/
def adapterCallCount : Except InputValidationError RunData → Nat
  | Except.error _ => 0
  | Except.ok d => d.llm_calls

/-- Result of the chat decision handler: the optionally generated artifact
pair and the status message returned to the user. -/
structure DecisionResult where
  generated : Option (String × String)
  message : String

/-- Message returned by the decision handler when conflicts block generation:
the detailed conflict messages are returned instead of artifacts. -/
def conflictDetailMessage (cs : List Conflict) : String :=
  "Rule generation was not performed because conflicts exist: " ++
    String.intercalate "; " (cs.map fun c => c.description)

/-- Message returned by the decision handler for a modify decision. -/
def modifyPromptMessage : String :=
  "Please describe the modifications you would like to make to the proposed rule."

/-- Message returned by the decision handler for a cancel decision. -/
def cancelAckMessage : String :=
  "The rule generation process was cancelled."

/-- Message returned by the decision handler on successful generation. -/
def generatedFilesMessage (arts : String × String) : String :=
  "The rule files were generated and saved for download. Rule file: " ++
    (arts.1 ++ (" Decision table: " ++ arts.2))

/-- Modelled from the spec: the chat decision handler `handle_decision` (its
implementation is absent from the sources; the orchestration-handler
changelog documents its behavior).  A proceed decision triggers generation
through the supplied generator only when the conflict list is empty; any
conflicts prevent generation and return the detailed conflict messages;
modify and cancel return their status messages without generating. -/
def handle_decision (d : Decision) (cs : List Conflict) (pr : ParsedRule)
    (gen : ParsedRule → String × String) : DecisionResult :=
  match d with
  | Decision.proceed =>
    if cs = [] then
      let arts := gen pr
      { generated := some arts, message := generatedFilesMessage arts }
    else
      { generated := none, message := conflictDetailMessage cs }
  | Decision.modify => { generated := none, message := modifyPromptMessage }
  | Decision.cancel => { generated := none, message := cancelAckMessage }

/-- The opening brace character. -/
def openBrace : Char := '\x7b'

/-- The closing brace character. -/
def closeBrace : Char := '\x7d'

/-- Drop everything before the first opening brace. -/
def spanFromBrace (s : List Char) : List Char :=
  s.dropWhile fun c => decide (c ≠ openBrace)

/-- Drop everything after the last closing brace. -/
def spanToBrace (s : List Char) : List Char :=
  (s.reverse.dropWhile fun c => decide (c ≠ closeBrace)).reverse

/-- Locate the JSON span of a raw LLM response: the segment from the first
opening brace to the last closing brace, if any. -/
def extract_json_span (s : List Char) : Option (List Char) :=
  let t := spanToBrace (spanFromBrace s)
  if t = [] then none else some t

/-- Remove trailing commas: a comma standing directly before a closing brace
or a closing bracket is dropped. -/
def fix_trailing_commas : List Char → List Char
  | [] => []
  | c :: rest =>
    let tail := fix_trailing_commas rest
    if c = ',' ∧ (tail.head? = some closeBrace ∨ tail.head? = some ']') then tail
    else c :: tail

/-- Failure of the JSON repair routine. -/
inductive JsonRepairError
  | UnrecoverableJSON
deriving DecidableEq

/-- Modelled from the spec: the JSON Response Handler repair routine (its
implementation is absent from the sources).  It locates the JSON span,
strips the non-JSON wrapper text around it and fixes trailing commas; when no
span can be located it reports `UnrecoverableJSON` instead of crashing.  The
canonical repaired text determines the parsed rule structure, so any
deterministic JSON parse applied after repair yields identical structures for
texts with identical repairs. -/
def repair_llm_json (s : List Char) : Except JsonRepairError (List Char) :=
  match extract_json_span s with
  | none => Except.error JsonRepairError.UnrecoverableJSON
  | some t => Except.ok (fix_trailing_commas t)

/-- A row of the knowledge base: source filename, text chunk and its
embedding vector. -/
structure KBEntry where
  filename : String
  chunk : String
  embedding : List Int
deriving DecidableEq

/-- The deduplication key of a knowledge-base row: filename and chunk
content. -/
def kbKey (e : KBEntry) : String × String :=
  (e.filename, e.chunk)

/-- Deduplicate knowledge-base rows on `kbKey`, keeping the first occurrence
of each key; `seen` accumulates the keys already kept. -/
def dedupKB : List KBEntry → List (String × String) → List KBEntry
  | [], _ => []
  | e :: rest, seen =>
    if kbKey e ∈ seen then dedupKB rest seen
    else e :: dedupKB rest (kbKey e :: seen)

/-- Modelled from the spec: `core_build_knowledge_base` with an existing KB
(the kb_utils module is absent from the sources; the changelog documents the
merge).  New rows are concatenated after the existing KB and the merged table
is deduplicated on filename and chunk content, keeping existing rows. -/
def core_build_knowledge_base (new_entries existing_kb : List KBEntry) : List KBEntry :=
  dedupKB (existing_kb ++ new_entries) []

/-- Sample parsed rule used by the concrete witnesses. -/
def sampleRule : ParsedRule :=
  { name := "discount_rule", summary := "10 percent discount on large orders",
    conditions := [{ field := "order_total", op := ">", value := "100" }],
    actions := [{ action_type := "apply_discount", parameters := ["10"] }] }

/-- Sample impact assessment used by the concrete witnesses. -/
def sampleImpact : ImpactAnalysis :=
  { level := Severity.low, recommendation := "proceed" }

/-- Sample high-severity conflict used by the concrete witnesses. -/
def sampleHighConflict : Conflict :=
  { new_rule_id := "discount_rule", existing_rule_id := "pricing_rule_1",
    ctype := "business", severity := Severity.high,
    description := "conflicting pricing for the same items",
    suggested_resolution := "consolidate pricing rules" }

/-- Sample medium-severity conflict used by the concrete witnesses. -/
def sampleMediumConflict : Conflict :=
  { new_rule_id := "discount_rule", existing_rule_id := "capacity_rule_1",
    ctype := "operational", severity := Severity.medium,
    description := "rules may exceed kitchen capacity during peak hours",
    suggested_resolution := "add capacity checks" }

/-- Oracle in which every stage succeeds and verification passes. -/
def oracleHappy : Oracle :=
  { parse_result := Except.ok sampleRule, conflict_result := Except.ok [],
    impact_result := Except.ok sampleImpact, decision_result := Except.ok Decision.proceed,
    generate_result := Except.ok ("rule drl text", "gdst xml text"),
    verify_result := (true, "ok") }

/-- Oracle in which the parse stage fails. -/
def oracleParseFail : Oracle :=
  { oracleHappy with parse_result := Except.error "malformed LLM output" }

/-- Oracle in which conflict analysis reports a high-severity conflict. -/
def oracleHighConflict : Oracle :=
  { oracleHappy with conflict_result := Except.ok [sampleHighConflict] }

/-- Oracle in which the decision stage decides modify. -/
def oracleModify : Oracle :=
  { oracleHappy with decision_result := Except.ok Decision.modify }

/-- Oracle in which the decision stage decides cancel. -/
def oracleCancel : Oracle :=
  { oracleHappy with decision_result := Except.ok Decision.cancel }

/-- Oracle in which generation succeeds but verification fails. -/
def oracleVerifyFail : Oracle :=
  { oracleHappy with verify_result := (false, "missing rule block delimiter") }

/-- Sample stored rules used by the concrete witnesses. -/
def sampleStoredRuleV1 : Rule :=
  { rule_id := "r1", name := "age rule", category := "retail",
    conditions := [{ field := "customer_age", op := ">=", value := "18" }],
    actions := [{ action_type := "allow_purchase", parameters := [] }],
    priority := Severity.medium, active := true }

/-- Second payload for the same rule id, used by the concrete witnesses. -/
def sampleStoredRuleV2 : Rule :=
  { sampleStoredRuleV1 with
    conditions := [{ field := "customer_age", op := ">=", value := "21" }] }

/-- An unrelated stored rule used by the concrete witnesses. -/
def sampleOtherRule : Rule :=
  { rule_id := "r2", name := "capacity rule", category := "restaurant",
    conditions := [{ field := "party_size", op := "<=", value := "8" }],
    actions := [{ action_type := "allocate_table", parameters := [] }],
    priority := Severity.low, active := true }

/-- Sample knowledge-base rows used by the concrete witnesses. -/
def kbEntryA : KBEntry :=
  { filename := "doc1.pdf", chunk := "chunk one", embedding := [1, 2] }

/-- A second knowledge-base row used by the concrete witnesses. -/
def kbEntryB : KBEntry :=
  { filename := "doc2.pdf", chunk := "chunk two", embedding := [3] }

theorem str_append_ne_left (s t : String) (h : s ≠ "") : (s ++ t) ≠ "" := by
  intro hc
  apply h
  have hd : (s ++ t).data = [] := by simpa [String.ext_iff] using hc
  rw [String.data_append] at hd
  have h2 : s.data = [] := (List.append_eq_nil.mp hd).1
  exact String.ext_iff.mpr (by simpa using h2)

theorem errorMessage_ne_empty (stg : Stage) (msg : String) : errorMessage stg msg ≠ "" :=
  str_append_ne_left _ _ (by decide)

theorem respondMessage_ne_empty (st : WorkflowState) : respondMessage st ≠ "" := by
  unfold respondMessage
  split
  · exact str_append_ne_left _ _ (by decide)
  · split
    · decide
    · decide
    · split
      · exact str_append_ne_left _ _ (by decide)
      · exact str_append_ne_left _ _ (by decide)
      · decide
    · decide

/-- Claim C10: constructing a `VersionMetadata` record raises `ValueError`
exactly when the version is not a positive integer or the change type is not
one of the five valid change types; for all other arguments construction
succeeds and yields a record with those fields. -/
theorem version_metadata_validation (v : Int) (ct csum isum u : String) (dg : Bool) :
    (VersionMetadata.init v ct csum isum u dg =
        Except.ok { version := v, change_type := ct, change_summary := csum,
                    impact_summary := isum, user := u, drl_generated := dg }
      ↔ (1 ≤ v ∧ ct ∈ valid_change_types)) ∧
    ((∃ e, VersionMetadata.init v ct csum isum u dg = Except.error e)
      ↔ (v < 1 ∨ ct ∉ valid_change_types)) := by
  unfold VersionMetadata.init
  by_cases h1 : v < 1
  · constructor
    · simp only [h1, if_true]
      constructor
      · intro hc; cases hc
      · intro hc; omega
    · simp [h1]
  · by_cases h2 : ct ∈ valid_change_types
    · constructor
      · simp only [h1, if_false, h2]
        simp
        omega
      · simp [h1, h2]
    · constructor
      · simp [h1, h2]
      · simp [h1, h2]

theorem filter_ne_then_filter_eq (l : List Rule) (i : String) :
    ((l.filter fun x => decide (x.rule_id ≠ i)).filter fun x => decide (x.rule_id = i)) = [] := by
  induction l with
  | nil => rfl
  | cons a t ih =>
    by_cases h : a.rule_id = i <;> simp [List.filter_cons, h, ih]

/-- Claim C6: upserting twice with the same `rule_id` leaves exactly one
stored rule with that id, whose content is the second payload; repeating the
same upsert is idempotent (overwrite, never duplicate). -/
theorem upsert_rule_idempotent_overwrite (store : List Rule) (r1 r2 : Rule)
    (h : r1.rule_id = r2.rule_id) :
    ((upsert_rule (upsert_rule store r1) r2).filter fun x => decide (x.rule_id = r2.rule_id))
        = [r2] ∧
    upsert_rule (upsert_rule store r2) r2 = upsert_rule store r2 := by
  constructor
  · unfold upsert_rule
    rw [List.filter_append]
    rw [filter_ne_then_filter_eq]
    simp [List.filter_cons]
  · unfold upsert_rule
    rw [List.filter_append]
    have h2 : ([r2].filter fun x => decide (x.rule_id ≠ r2.rule_id)) = [] := by
      simp [List.filter_cons]
    rw [h2, List.append_nil]
    congr 1
    induction store with
    | nil => rfl
    | cons a t ih =>
      by_cases ha : a.rule_id = r2.rule_id <;> simp [List.filter_cons, ha, ih]

/-- Witness for claim C6 at a concrete store and payloads. -/
theorem upsert_rule_idempotent_overwrite_witness :
    ((upsert_rule (upsert_rule [sampleOtherRule, sampleStoredRuleV1] sampleStoredRuleV1)
        sampleStoredRuleV2).filter fun x => decide (x.rule_id = sampleStoredRuleV2.rule_id))
      = [sampleStoredRuleV2] :=
  (upsert_rule_idempotent_overwrite [sampleOtherRule, sampleStoredRuleV1]
    sampleStoredRuleV1 sampleStoredRuleV2 (by decide)).1

/-- Claim C8: in the chat decision handler, a proceed decision generates
artifacts exactly when the conflict list is empty; any conflict of any
severity prevents generation and the detailed conflict messages are returned
instead. -/
theorem handle_decision_blocks_on_any_conflict (d : Decision) (cs : List Conflict)
    (pr : ParsedRule) (gen : ParsedRule → String × String) :
    ((handle_decision d cs pr gen).generated.isSome = true ↔ (d = Decision.proceed ∧ cs = [])) ∧
    (d = Decision.proceed → cs ≠ [] →
      (handle_decision d cs pr gen).generated = none ∧
      (handle_decision d cs pr gen).message = conflictDetailMessage cs) := by
  cases d <;> by_cases h : cs = [] <;> simp [handle_decision, h]

/-- Witness for claim C8: a medium-severity conflict alone blocks generation. -/
theorem handle_decision_blocks_on_any_conflict_witness :
    (handle_decision Decision.proceed [sampleMediumConflict] sampleRule
        (fun _ => ("drl text", "gdst text"))).generated = none ∧
    (handle_decision Decision.proceed [sampleMediumConflict] sampleRule
        (fun _ => ("drl text", "gdst text"))).message
      = conflictDetailMessage [sampleMediumConflict] :=
  (handle_decision_blocks_on_any_conflict Decision.proceed [sampleMediumConflict] sampleRule
    (fun _ => ("drl text", "gdst text"))).2 rfl (by decide)

theorem dropWhile_append_all {p : Char → Bool} (l1 l2 : List Char)
    (h : ∀ a ∈ l1, p a = true) :
    List.dropWhile p (l1 ++ l2) = List.dropWhile p l2 := by
  induction l1 with
  | nil => rfl
  | cons a t ih =>
    rw [List.cons_append, List.dropWhile_cons, if_pos (h a (by simp))]
    exact ih fun x hx => h x (by simp [hx])

theorem spanFromBrace_wrapped (pre rest : List Char) (hpre : openBrace ∉ pre) :
    spanFromBrace (pre ++ (openBrace :: rest)) = openBrace :: rest := by
  unfold spanFromBrace
  rw [dropWhile_append_all _ _ (fun a ha => by
    simp only [decide_eq_true_iff]
    exact fun hc => hpre (hc ▸ ha))]
  rw [List.dropWhile_cons, if_neg (by simp)]

theorem spanToBrace_keeps_payload (core post : List Char) (hpost : closeBrace ∉ post) :
    spanToBrace (openBrace :: (core ++ (closeBrace :: post)))
      = openBrace :: (core ++ [closeBrace]) := by
  unfold spanToBrace
  have hrev : (openBrace :: (core ++ (closeBrace :: post))).reverse
      = post.reverse ++ (closeBrace :: (core.reverse ++ [openBrace])) := by
    simp [List.reverse_cons, List.reverse_append, List.append_assoc]
  rw [hrev]
  rw [dropWhile_append_all _ _ (fun a ha => by
    simp only [decide_eq_true_iff]
    exact fun hc => hpost (hc ▸ (List.mem_reverse.mp ha)))]
  rw [List.dropWhile_cons, if_neg (by simp)]
  simp [List.reverse_cons, List.reverse_append, List.append_assoc]

/-- Claim C4: for every JSON object payload and every prose wrapper around it
(brace-free text before and after the payload), the repair routine produces
the same repaired structure from the wrapped text as from the bare payload
alone, trailing commas included in the repair; and on text with no JSON span
it returns `UnrecoverableJSON` instead of crashing. -/
theorem json_repair_wrapper_invariance (pre core post : List Char)
    (hpre : openBrace ∉ pre) (hpost : closeBrace ∉ post) :
    repair_llm_json (pre ++ (openBrace :: (core ++ [closeBrace])) ++ post)
        = repair_llm_json (openBrace :: (core ++ [closeBrace])) ∧
    (∀ s : List Char, openBrace ∉ s →
      repair_llm_json s = Except.error JsonRepairError.UnrecoverableJSON) := by
  constructor
  · have hshape : pre ++ (openBrace :: (core ++ [closeBrace])) ++ post
        = pre ++ (openBrace :: (core ++ (closeBrace :: post))) := by
      simp [List.append_assoc]
    have hfrom : spanFromBrace (pre ++ (openBrace :: (core ++ (closeBrace :: post))))
        = openBrace :: (core ++ (closeBrace :: post)) :=
      spanFromBrace_wrapped pre _ hpre
    have hfrom2 : spanFromBrace (openBrace :: (core ++ [closeBrace]))
        = openBrace :: (core ++ [closeBrace]) := by
      unfold spanFromBrace
      rw [List.dropWhile_cons, if_neg (by simp)]
    have hto : spanToBrace (openBrace :: (core ++ (closeBrace :: post)))
        = openBrace :: (core ++ [closeBrace]) :=
      spanToBrace_keeps_payload core post hpost
    have hto2 : spanToBrace (openBrace :: (core ++ [closeBrace]))
        = openBrace :: (core ++ [closeBrace]) := by
      have h0 : (core ++ [closeBrace] : List Char) = core ++ (closeBrace :: ([] : List Char)) := rfl
      rw [h0]
      exact spanToBrace_keeps_payload core [] (by simp)
    unfold repair_llm_json extract_json_span
    rw [hshape, hfrom, hfrom2, hto, hto2]
  · intro s hs
    have hnil : spanFromBrace s = [] := by
      unfold spanFromBrace
      exact List.dropWhile_eq_nil_iff.mpr fun x hx => by
        simp only [decide_eq_true_iff]
        exact fun hc => hs (hc ▸ hx)
    unfold repair_llm_json extract_json_span
    rw [hnil]
    rfl

/-- Witness for claim C4: a concrete payload with a trailing comma, wrapped
in prose, repairs identically to the bare payload. -/
theorem json_repair_wrapper_invariance_witness :
    repair_llm_json (("Here is the rule: ".data
        ++ (openBrace :: ("name:discount,".data ++ [closeBrace]))
        ++ " Hope that helps!".data))
      = repair_llm_json (openBrace :: ("name:discount,".data ++ [closeBrace])) :=
  (json_repair_wrapper_invariance "Here is the rule: ".data "name:discount,".data
    " Hope that helps!".data (by decide) (by decide)).1

theorem run_workflow_parse_error (s : String) (hist : List (String × String)) (ind : String)
    (o : Oracle) (store : List Rule) (m : String)
    (hs : s.data.all isWS = false) (hp : o.parse_result = Except.error m) :
    run_workflow (some s) hist ind o store
      = Except.ok (finishError (initialState s hist ind) [Stage.load_config] 1
          Stage.parse_rule m store) := by
  unfold run_workflow
  simp [invalidUserInput, hs, hp]

theorem run_workflow_conflict_error (s : String) (hist : List (String × String)) (ind : String)
    (o : Oracle) (store : List Rule) (pr : ParsedRule) (m : String)
    (hs : s.data.all isWS = false) (hp : o.parse_result = Except.ok pr)
    (hc : o.conflict_result = Except.error m) :
    run_workflow (some s) hist ind o store
      = Except.ok (finishError { initialState s hist ind with parsed_rule := some pr }
          [Stage.load_config, Stage.parse_rule] 2 Stage.conflict_analysis m store) := by
  unfold run_workflow
  simp [invalidUserInput, hs, hp, hc]

theorem run_workflow_impact_error (s : String) (hist : List (String × String)) (ind : String)
    (o : Oracle) (store : List Rule) (pr : ParsedRule) (cs : List Conflict) (m : String)
    (hs : s.data.all isWS = false) (hp : o.parse_result = Except.ok pr)
    (hc : o.conflict_result = Except.ok cs) (hi : o.impact_result = Except.error m) :
    run_workflow (some s) hist ind o store
      = Except.ok (finishError
          { initialState s hist ind with parsed_rule := some pr, conflicts := cs }
          [Stage.load_config, Stage.parse_rule, Stage.conflict_analysis] 3
          Stage.impact_analysis m store) := by
  unfold run_workflow
  simp [invalidUserInput, hs, hp, hc, hi]

theorem run_workflow_decision_error (s : String) (hist : List (String × String)) (ind : String)
    (o : Oracle) (store : List Rule) (pr : ParsedRule) (cs : List Conflict)
    (ia : ImpactAnalysis) (m : String)
    (hs : s.data.all isWS = false) (hp : o.parse_result = Except.ok pr)
    (hc : o.conflict_result = Except.ok cs) (hi : o.impact_result = Except.ok ia)
    (hd : o.decision_result = Except.error m) :
    run_workflow (some s) hist ind o store
      = Except.ok (finishError
          { initialState s hist ind with
              parsed_rule := some pr, conflicts := cs, impact_report := some ia }
          [Stage.load_config, Stage.parse_rule, Stage.conflict_analysis, Stage.impact_analysis]
          4 Stage.orchestration_decision m store) := by
  unfold run_workflow
  simp [invalidUserInput, hs, hp, hc, hi, hd]

theorem run_workflow_generate_error (s : String) (hist : List (String × String)) (ind : String)
    (o : Oracle) (store : List Rule) (pr : ParsedRule) (cs : List Conflict)
    (ia : ImpactAnalysis) (d : Decision) (m : String)
    (hs : s.data.all isWS = false) (hp : o.parse_result = Except.ok pr)
    (hc : o.conflict_result = Except.ok cs) (hi : o.impact_result = Except.ok ia)
    (hd : o.decision_result = Except.ok d)
    (hroute : d = Decision.proceed ∧ hasHighSeverity cs = false)
    (hg : o.generate_result = Except.error m) :
    run_workflow (some s) hist ind o store
      = Except.ok (finishError
          { initialState s hist ind with
              parsed_rule := some pr, conflicts := cs, impact_report := some ia,
              decision := some d }
          [Stage.load_config, Stage.parse_rule, Stage.conflict_analysis, Stage.impact_analysis,
            Stage.orchestration_decision] 5 Stage.generate_files m store) := by
  unfold run_workflow
  simp [invalidUserInput, hs, hp, hc, hi, hd, hg, hroute.1, hroute.2]

theorem run_workflow_generate_ok (s : String) (hist : List (String × String)) (ind : String)
    (o : Oracle) (store : List Rule) (pr : ParsedRule) (cs : List Conflict)
    (ia : ImpactAnalysis) (d : Decision) (arts : String × String)
    (hs : s.data.all isWS = false) (hp : o.parse_result = Except.ok pr)
    (hc : o.conflict_result = Except.ok cs) (hi : o.impact_result = Except.ok ia)
    (hd : o.decision_result = Except.ok d)
    (hroute : d = Decision.proceed ∧ hasHighSeverity cs = false)
    (hg : o.generate_result = Except.ok arts) :
    run_workflow (some s) hist ind o store
      = Except.ok (finishRespond
          { initialState s hist ind with
              parsed_rule := some pr, conflicts := cs, impact_report := some ia,
              decision := some d, generated_artifacts := some arts,
              verification_result := some o.verify_result }
          [Stage.load_config, Stage.parse_rule, Stage.conflict_analysis, Stage.impact_analysis,
            Stage.orchestration_decision, Stage.generate_files, Stage.verify_files]
          5 [mkStoredRule pr ind] (upsert_rule store (mkStoredRule pr ind))) := by
  unfold run_workflow
  simp [invalidUserInput, hs, hp, hc, hi, hd, hg, hroute.1, hroute.2]

theorem run_workflow_respond_blocked (s : String) (hist : List (String × String)) (ind : String)
    (o : Oracle) (store : List Rule) (pr : ParsedRule) (cs : List Conflict)
    (ia : ImpactAnalysis) (d : Decision)
    (hs : s.data.all isWS = false) (hp : o.parse_result = Except.ok pr)
    (hc : o.conflict_result = Except.ok cs) (hi : o.impact_result = Except.ok ia)
    (hd : o.decision_result = Except.ok d)
    (hroute : ¬(d = Decision.proceed ∧ hasHighSeverity cs = false)) :
    run_workflow (some s) hist ind o store
      = Except.ok (finishRespond
          { initialState s hist ind with
              parsed_rule := some pr, conflicts := cs, impact_report := some ia,
              decision := some d }
          [Stage.load_config, Stage.parse_rule, Stage.conflict_analysis, Stage.impact_analysis,
            Stage.orchestration_decision] 4 [] store) := by
  unfold run_workflow
  simp [invalidUserInput, hs, hp, hc, hi, hd, hroute]

/-- Claim C1: for every valid input and every adapter behavior, the workflow
returns a terminal state whose final response is set and non-empty; a stage
failure is recorded in the error field and routed through the error handler
(the error handler appears in the trace exactly when an error was recorded),
and the run always returns a terminal result to the caller. -/
theorem workflow_always_terminates_with_response (s : String) (hist : List (String × String))
    (ind : String) (o : Oracle) (store : List Rule)
    (hs : s.data.all isWS = false) :
    ∃ rd, run_workflow (some s) hist ind o store = Except.ok rd ∧
      rd.state.final_response ≠ "" ∧
      (Stage.handle_error ∈ rd.trace ↔ rd.state.error.isSome = true) := by
  cases hp : o.parse_result with
  | error m =>
    exact ⟨_, run_workflow_parse_error s hist ind o store m hs hp,
      errorMessage_ne_empty _ _, by simp [finishError]⟩
  | ok pr =>
    cases hc : o.conflict_result with
    | error m =>
      exact ⟨_, run_workflow_conflict_error s hist ind o store pr m hs hp hc,
        errorMessage_ne_empty _ _, by simp [finishError]⟩
    | ok cs =>
      cases hi : o.impact_result with
      | error m =>
        exact ⟨_, run_workflow_impact_error s hist ind o store pr cs m hs hp hc hi,
          errorMessage_ne_empty _ _, by simp [finishError]⟩
      | ok ia =>
        cases hd : o.decision_result with
        | error m =>
          exact ⟨_, run_workflow_decision_error s hist ind o store pr cs ia m hs hp hc hi hd,
            errorMessage_ne_empty _ _, by simp [finishError]⟩
        | ok d =>
          by_cases hroute : d = Decision.proceed ∧ hasHighSeverity cs = false
          · cases hg : o.generate_result with
            | error m =>
              exact ⟨_, run_workflow_generate_error s hist ind o store pr cs ia d m
                  hs hp hc hi hd hroute hg,
                errorMessage_ne_empty _ _, by simp [finishError]⟩
            | ok arts =>
              exact ⟨_, run_workflow_generate_ok s hist ind o store pr cs ia d arts
                  hs hp hc hi hd hroute hg,
                respondMessage_ne_empty _, by simp [finishRespond, initialState]⟩
          · exact ⟨_, run_workflow_respond_blocked s hist ind o store pr cs ia d
                hs hp hc hi hd hroute,
              respondMessage_ne_empty _, by simp [finishRespond, initialState]⟩

/-- Witness for claim C1 at a concrete input, with an adapter whose parse
stage fails. -/
theorem workflow_always_terminates_with_response_witness :
    ∃ rd, run_workflow (some "add a discount rule") [] "retail" oracleParseFail []
        = Except.ok rd ∧
      rd.state.final_response ≠ "" ∧
      (Stage.handle_error ∈ rd.trace ↔ rd.state.error.isSome = true) :=
  workflow_always_terminates_with_response "add a discount rule" [] "retail"
    oracleParseFail [] (by decide)

/-- Claim C3: when the user input is `None`, empty, or whitespace-only, the
workflow fails with `InputValidationError` before any LLM adapter call: the
adapter call count is zero and the outcome does not depend on the adapter at
all, for every conversation history and industry context. -/
theorem invalid_input_rejected_before_llm (user_input : Option String)
    (hist : List (String × String)) (ind : String) (o o2 : Oracle) (store : List Rule)
    (h : user_input = none ∨ ∃ s, user_input = some s ∧ s.data.all isWS = true) :
    run_workflow user_input hist ind o store
        = Except.error { message := invalidInputMessage } ∧
    adapterCallCount (run_workflow user_input hist ind o store) = 0 ∧
    run_workflow user_input hist ind o store = run_workflow user_input hist ind o2 store := by
  have hbad : invalidUserInput user_input = true := by
    rcases h with h | ⟨s, rfl, hws⟩
    · simp [h, invalidUserInput]
    · simp [invalidUserInput, hws]
  refine ⟨?_, ?_, ?_⟩ <;> unfold run_workflow <;> simp [hbad, adapterCallCount]

/-- Witness for claim C3 at a concrete whitespace-only input. -/
theorem invalid_input_rejected_before_llm_witness :
    run_workflow (some "   ") [] "retail" oracleHappy []
        = Except.error { message := invalidInputMessage } ∧
    adapterCallCount (run_workflow (some "   ") [] "retail" oracleHappy []) = 0 := by
  obtain ⟨h1, h2, _⟩ := invalid_input_rejected_before_llm (some "   ") [] "retail"
    oracleHappy oracleParseFail [] (Or.inr ⟨"   ", rfl, by decide⟩)
  exact ⟨h1, h2⟩

/-- Claim C2: once the orchestration decision is made, the run enters file
generation exactly when the decision is proceed and no conflict has severity
high; whenever some conflict has severity high the run never reaches file
generation, regardless of the decision, and terminates through the respond
stage with the conflict details in the final response. -/
theorem high_severity_conflicts_gate_generation (s : String) (hist : List (String × String))
    (ind : String) (o : Oracle) (store : List Rule) (pr : ParsedRule) (cs : List Conflict)
    (ia : ImpactAnalysis) (d : Decision)
    (hs : s.data.all isWS = false) (hp : o.parse_result = Except.ok pr)
    (hc : o.conflict_result = Except.ok cs) (hi : o.impact_result = Except.ok ia)
    (hd : o.decision_result = Except.ok d) :
    ∃ rd, run_workflow (some s) hist ind o store = Except.ok rd ∧
      (Stage.generate_files ∈ rd.trace ↔ (d = Decision.proceed ∧ hasHighSeverity cs = false)) ∧
      (hasHighSeverity cs = true →
        Stage.generate_files ∉ rd.trace ∧ Stage.respond ∈ rd.trace ∧
        rd.state.final_response = highConflictMessage cs) := by
  by_cases hroute : d = Decision.proceed ∧ hasHighSeverity cs = false
  · cases hg : o.generate_result with
    | error m =>
      refine ⟨_, run_workflow_generate_error s hist ind o store pr cs ia d m
          hs hp hc hi hd hroute hg, ?_, ?_⟩
      · simp [finishError, hroute.1, hroute.2]
      · intro hh
        rw [hroute.2] at hh
        cases hh
    | ok arts =>
      refine ⟨_, run_workflow_generate_ok s hist ind o store pr cs ia d arts
          hs hp hc hi hd hroute hg, ?_, ?_⟩
      · simp [finishRespond, hroute.1, hroute.2]
      · intro hh
        rw [hroute.2] at hh
        cases hh
  · refine ⟨_, run_workflow_respond_blocked s hist ind o store pr cs ia d
        hs hp hc hi hd hroute, ?_, ?_⟩
    · simp [finishRespond, hroute]
    · intro hh
      refine ⟨by simp [finishRespond], by simp [finishRespond], ?_⟩
      simp [finishRespond, respondMessage, hh]

/-- Witness for claim C2: with a high-severity conflict and a proceed
decision, generation is never reached and the conflict detail is surfaced. -/
theorem high_severity_conflicts_gate_generation_witness :
    ∃ rd, run_workflow (some "add a discount rule") [] "retail" oracleHighConflict []
        = Except.ok rd ∧
      Stage.generate_files ∉ rd.trace ∧
      rd.state.final_response = highConflictMessage [sampleHighConflict] := by
  obtain ⟨rd, hrun, _, hhigh⟩ := high_severity_conflicts_gate_generation
    "add a discount rule" [] "retail" oracleHighConflict [] sampleRule
    [sampleHighConflict] sampleImpact Decision.proceed (by decide) rfl rfl rfl rfl
  obtain ⟨h1, _, h3⟩ := hhigh (by decide)
  exact ⟨rd, hrun, h1, h3⟩

/-- Claim C5: when the run reaches verification and verification reports
failure, the artifacts produced by the generation stage are still present
unchanged in the terminal state, the final response carries both artifacts
together with a warning, and the failure is not routed to the error
handler. -/
theorem verification_failure_preserves_artifacts (s : String) (hist : List (String × String))
    (ind : String) (o : Oracle) (store : List Rule) (pr : ParsedRule) (cs : List Conflict)
    (ia : ImpactAnalysis) (arts : String × String) (vmsg : String)
    (hs : s.data.all isWS = false) (hp : o.parse_result = Except.ok pr)
    (hc : o.conflict_result = Except.ok cs) (hi : o.impact_result = Except.ok ia)
    (hd : o.decision_result = Except.ok Decision.proceed)
    (hhigh : hasHighSeverity cs = false) (hg : o.generate_result = Except.ok arts)
    (hv : o.verify_result = (false, vmsg)) :
    ∃ rd, run_workflow (some s) hist ind o store = Except.ok rd ∧
      rd.state.generated_artifacts = some arts ∧
      Stage.handle_error ∉ rd.trace ∧
      rd.state.final_response = verifyWarningMessage arts vmsg := by
  refine ⟨_, run_workflow_generate_ok s hist ind o store pr cs ia Decision.proceed arts
      hs hp hc hi hd ⟨rfl, hhigh⟩ hg, ?_, ?_, ?_⟩
  · simp [finishRespond]
  · simp [finishRespond]
  · simp [finishRespond, respondMessage, hhigh, hv]

/-- Witness for claim C5 at a concrete input whose verification fails. -/
theorem verification_failure_preserves_artifacts_witness :
    ∃ rd, run_workflow (some "add a discount rule") [] "retail" oracleVerifyFail []
        = Except.ok rd ∧
      rd.state.generated_artifacts = some ("rule drl text", "gdst xml text") ∧
      Stage.handle_error ∉ rd.trace ∧
      rd.state.final_response
        = verifyWarningMessage ("rule drl text", "gdst xml text")
            "missing rule block delimiter" :=
  verification_failure_preserves_artifacts "add a discount rule" [] "retail"
    oracleVerifyFail [] sampleRule [] sampleImpact ("rule drl text", "gdst xml text")
    "missing rule block delimiter" (by decide) rfl rfl rfl rfl (by decide) rfl rfl

/-- Claim C7: a modify decision terminates the run at the respond stage with
a request for clarification and never re-enters the parse stage within the
run; a cancel decision terminates the run at the respond stage with a
cancellation acknowledgment and performs no write to the rule store. -/
theorem modify_cancel_terminate_without_side_effects (s : String)
    (hist : List (String × String)) (ind : String) (o : Oracle) (store : List Rule)
    (pr : ParsedRule) (cs : List Conflict) (ia : ImpactAnalysis)
    (hs : s.data.all isWS = false) (hp : o.parse_result = Except.ok pr)
    (hc : o.conflict_result = Except.ok cs) (hi : o.impact_result = Except.ok ia) :
    (o.decision_result = Except.ok Decision.modify →
      ∃ rd, run_workflow (some s) hist ind o store = Except.ok rd ∧
        rd.trace.getLast? = some Stage.respond ∧
        rd.trace.count Stage.parse_rule = 1 ∧ rd.writes = [] ∧
        (hasHighSeverity cs = false → rd.state.final_response = modifyMessage)) ∧
    (o.decision_result = Except.ok Decision.cancel →
      ∃ rd, run_workflow (some s) hist ind o store = Except.ok rd ∧
        rd.trace.getLast? = some Stage.respond ∧
        rd.writes = [] ∧ rd.store_after = store ∧
        (hasHighSeverity cs = false → rd.state.final_response = cancelMessage)) := by
  constructor
  · intro hd
    refine ⟨_, run_workflow_respond_blocked s hist ind o store pr cs ia Decision.modify
        hs hp hc hi hd (by simp), ?_, ?_, ?_, ?_⟩
    · simp [finishRespond]
    · simp [finishRespond]
    · simp [finishRespond]
    · intro hh
      simp [finishRespond, respondMessage, hh]
  · intro hd
    refine ⟨_, run_workflow_respond_blocked s hist ind o store pr cs ia Decision.cancel
        hs hp hc hi hd (by simp), ?_, ?_, ?_, ?_⟩
    · simp [finishRespond]
    · simp [finishRespond]
    · simp [finishRespond]
    · intro hh
      simp [finishRespond, respondMessage, hh]

/-- Witness for claim C7 at concrete runs deciding modify and cancel. -/
theorem modify_cancel_terminate_without_side_effects_witness :
    (∃ rd, run_workflow (some "change the discount rule") [] "retail" oracleModify []
        = Except.ok rd ∧ rd.trace.count Stage.parse_rule = 1 ∧
        rd.state.final_response = modifyMessage) ∧
    (∃ rd, run_workflow (some "never mind") [] "retail" oracleCancel []
        = Except.ok rd ∧ rd.writes = [] ∧ rd.store_after = [] ∧
        rd.state.final_response = cancelMessage) := by
  constructor
  · obtain ⟨hm, _⟩ := modify_cancel_terminate_without_side_effects
      "change the discount rule" [] "retail" oracleModify [] sampleRule [] sampleImpact
      (by decide) rfl rfl rfl
    obtain ⟨rd, h1, _, h3, _, h5⟩ := hm rfl
    exact ⟨rd, h1, h3, h5 (by decide)⟩
  · obtain ⟨_, hcn⟩ := modify_cancel_terminate_without_side_effects
      "never mind" [] "retail" oracleCancel [] sampleRule [] sampleImpact
      (by decide) rfl rfl rfl
    obtain ⟨rd, h1, _, h3, h4, h5⟩ := hcn rfl
    exact ⟨rd, h1, h3, h4, h5 (by decide)⟩

theorem dedupKB_cons (e : KBEntry) (rest : List KBEntry) (seen : List (String × String)) :
    dedupKB (e :: rest) seen
      = if kbKey e ∈ seen then dedupKB rest seen else e :: dedupKB rest (kbKey e :: seen) :=
  rfl

theorem dedupKB_congr_seen (l : List KBEntry) :
    ∀ s1 s2 : List (String × String), (∀ a, a ∈ s1 ↔ a ∈ s2) →
      dedupKB l s1 = dedupKB l s2 := by
  induction l with
  | nil => intro s1 s2 _; rfl
  | cons e rest ih =>
    intro s1 s2 hs
    unfold dedupKB
    by_cases he : kbKey e ∈ s1
    · rw [if_pos he, if_pos ((hs (kbKey e)).mp he)]
      exact ih s1 s2 hs
    · rw [if_neg he, if_neg (fun hc => he ((hs (kbKey e)).mpr hc))]
      refine congrArg (e :: ·) (ih _ _ fun a => ?_)
      simp only [List.mem_cons]
      exact or_congr Iff.rfl (hs a)

theorem mem_map_kbKey_dedupKB (l : List KBEntry) :
    ∀ (seen : List (String × String)) (p : String × String),
      p ∈ (dedupKB l seen).map kbKey ↔ (p ∈ l.map kbKey ∧ p ∉ seen) := by
  induction l with
  | nil => intro seen p; simp [dedupKB]
  | cons e rest ih =>
    intro seen p
    unfold dedupKB
    by_cases he : kbKey e ∈ seen
    · rw [if_pos he]
      rw [ih seen p]
      by_cases hp : p = kbKey e
      · subst hp
        simp [he]
      · simp [List.mem_cons, hp]
    · rw [if_neg he]
      simp only [List.map_cons, List.mem_cons]
      rw [ih (kbKey e :: seen) p]
      by_cases hp : p = kbKey e
      · subst hp
        simp [he]
      · simp [List.mem_cons, hp]

theorem dedupKB_append (x y : List KBEntry) :
    ∀ seen : List (String × String),
      dedupKB (x ++ y) seen
        = dedupKB x seen ++ dedupKB y (x.reverse.map kbKey ++ seen) := by
  induction x with
  | nil => intro seen; simp [dedupKB]
  | cons e rest ih =>
    intro seen
    rw [List.cons_append, dedupKB_cons, dedupKB_cons]
    have hrev : (e :: rest).reverse.map kbKey ++ seen
        = rest.reverse.map kbKey ++ (kbKey e :: seen) := by
      simp
    rw [hrev]
    by_cases he : kbKey e ∈ seen
    · rw [if_pos he, if_pos he, ih seen]
      refine congrArg (dedupKB rest seen ++ ·) (dedupKB_congr_seen y _ _ fun a => ?_)
      simp only [List.mem_append, List.mem_cons]
      constructor
      · rintro (h | h)
        · exact Or.inl h
        · exact Or.inr (Or.inr h)
      · rintro (h | rfl | h)
        · exact Or.inl h
        · exact Or.inr he
        · exact Or.inr h
    · rw [if_neg he, if_neg he, ih (kbKey e :: seen), List.cons_append]

theorem dedupKB_nil_of_seen (y : List KBEntry) :
    ∀ seen : List (String × String), (∀ e ∈ y, kbKey e ∈ seen) → dedupKB y seen = [] := by
  induction y with
  | nil => intro seen _; rfl
  | cons e rest ih =>
    intro seen h
    unfold dedupKB
    rw [if_pos (h e (by simp))]
    exact ih seen fun x hx => h x (by simp [hx])

theorem nodup_map_kbKey_dedupKB (l : List KBEntry) :
    ∀ seen : List (String × String), ((dedupKB l seen).map kbKey).Nodup := by
  induction l with
  | nil => intro seen; simp [dedupKB]
  | cons e rest ih =>
    intro seen
    unfold dedupKB
    by_cases he : kbKey e ∈ seen
    · rw [if_pos he]
      exact ih seen
    · rw [if_neg he]
      simp only [List.map_cons, List.nodup_cons]
      refine ⟨fun hc => ?_, ih (kbKey e :: seen)⟩
      have := (mem_map_kbKey_dedupKB rest (kbKey e :: seen) (kbKey e)).mp hc
      exact this.2 (by simp)

theorem dedupKB_fixed (l : List KBEntry) :
    ∀ seen : List (String × String), (∀ p ∈ l.map kbKey, p ∉ seen) →
      (l.map kbKey).Nodup → dedupKB l seen = l := by
  induction l with
  | nil => intro seen _ _; rfl
  | cons e rest ih =>
    intro seen h1 h2
    unfold dedupKB
    rw [if_neg (h1 (kbKey e) (by simp))]
    refine congrArg (e :: ·) (ih (kbKey e :: seen) (fun p hp => ?_) ?_)
    · simp only [List.mem_cons]
      rintro (hc | hc)
      · exact ((List.nodup_cons.mp (by simpa using h2)).1) (hc ▸ hp)
      · exact h1 p (by simp [hp]) hc
    · exact (List.nodup_cons.mp (by simpa using h2)).2

/-- Claim C9: building the knowledge base over an existing KB merges instead
of replacing: every (filename, chunk) pair of the existing KB is still
present in the result; adding only rows whose pairs are already present
yields exactly the deduplicated existing KB; and repeating the same build is
idempotent. -/
theorem kb_merge_monotone_and_idempotent (existing news : List KBEntry) :
    (∀ p ∈ existing.map kbKey, p ∈ (core_build_knowledge_base news existing).map kbKey) ∧
    ((∀ e ∈ news, kbKey e ∈ existing.map kbKey) →
      core_build_knowledge_base news existing = dedupKB existing []) ∧
    core_build_knowledge_base news (core_build_knowledge_base news existing)
      = core_build_knowledge_base news existing := by
  refine ⟨?_, ?_, ?_⟩
  · intro p hp
    unfold core_build_knowledge_base
    refine (mem_map_kbKey_dedupKB _ [] p).mpr ⟨?_, by simp⟩
    rw [List.map_append, List.mem_append]
    exact Or.inl hp
  · intro h
    unfold core_build_knowledge_base
    rw [dedupKB_append]
    rw [dedupKB_nil_of_seen news _ fun e he => ?_, List.append_nil]
    simp only [List.append_nil, List.map_reverse, List.mem_reverse]
    exact h e he
  · unfold core_build_knowledge_base
    conv_lhs => rw [dedupKB_append]
    have hfix : dedupKB (dedupKB (existing ++ news) []) [] = dedupKB (existing ++ news) [] :=
      dedupKB_fixed _ [] (fun p _ => by simp) (nodup_map_kbKey_dedupKB _ [])
    rw [hfix]
    have hnil : dedupKB news ((dedupKB (existing ++ news) []).reverse.map kbKey ++ []) = [] := by
      refine dedupKB_nil_of_seen news _ fun e he => ?_
      simp only [List.append_nil, List.map_reverse, List.mem_reverse]
      refine (mem_map_kbKey_dedupKB _ [] (kbKey e)).mpr ⟨?_, by simp⟩
      rw [List.map_append, List.mem_append]
      exact Or.inr (List.mem_map_of_mem kbKey he)
    rw [hnil, List.append_nil]

/-- Witness for claim C9: re-adding a row whose filename and chunk are
already present leaves the deduplicated KB unchanged. -/
theorem kb_merge_monotone_and_idempotent_witness :
    core_build_knowledge_base [kbEntryA] [kbEntryA, kbEntryB]
      = dedupKB [kbEntryA, kbEntryB] [] :=
  (kb_merge_monotone_and_idempotent [kbEntryA, kbEntryB] [kbEntryA]).2.1 (by decide)
